import Mathlib

/-!
Verification of the user-service authentication and token-lifecycle subsystem
(registration, login, cookie-based JWT issuance/refresh, dual-mode token
resolution) as a shallow embedding of the Python sources
`users/authentication.py`, `users/views.py`, `users/serializers.py`,
`users/utils.py`.

JWT string encoding and cryptographic signing live in an external library and
are treated opaquely: a token is modelled as its decoded payload together with
a flag recording whether its signature verifies.  The Django `User` model and
the project settings module are not present in the source tree; definitions
derived from them carry a `Modelled from the spec:` note.
-/

namespace TabrizAuth

/-- Token type claim (`token_type` in simplejwt): access or refresh. -/
inductive TokenKind where
  | access
  | refresh
deriving Repr, DecidableEq

/-- Decoded JWT payload plus a flag for whether its signature verifies.
Both token kinds carry the subject user's id and an expiry timestamp
(spec section 3, Token Pair). -/
structure TokenData where
  userId : Nat
  exp    : Nat
  kind   : TokenKind
  sigOk  : Bool
deriving Repr, DecidableEq

/-- A cookie / header / body value as the Python code sees it:
`blank` is a Python-falsy empty string, `str` an opaque non-token string
(malformed as a JWT), `tok` a structurally well-formed JWT. -/
inductive Val where
  | blank
  | str (s : String)
  | tok (t : TokenData)
deriving Repr, DecidableEq

/-- Python truthiness of a cookie value (`if access_token:` / `if not refresh_token:`). -/
def Val.truthy : Val → Bool
  | Val.blank => false
  | _ => true

/-- Modelled from the spec: the `User` row of the credential store
(`users/models.py` is not under `src/`).  Fields follow spec section 3. -/
structure User where
  id           : Nat
  email        : String
  passwordHash : String
  firstName    : String
  lastName     : String
  isActive     : Bool
  dateJoined   : Nat
  lastLogin    : Option Nat
deriving Repr, DecidableEq

/-- The parts of an inbound HTTP request that the auth code reads:
cookies, the Authorization header, and the JSON body (as key/value pairs). -/
structure Request where
  cookies    : List (String × Val)
  authHeader : Option Val
  body       : List (String × Val)
deriving Repr, DecidableEq

/-- A `Set-Cookie` emitted on a response (attributes other than name/value
elided; they are constants in `utils.py`). -/
structure SetCookie where
  name  : String
  value : Val
deriving Repr, DecidableEq

/-- The parts of an outbound response the claims talk about. -/
structure Response where
  status         : Nat
  setCookies     : List SetCookie
  deletedCookies : List String
deriving Repr, DecidableEq

/-- Modelled from the spec: access-token lifetime from the settings module
(`SIMPLE_JWT['ACCESS_TOKEN_LIFETIME']`; settings file not under `src/`). -/
def ACCESS_TOKEN_LIFETIME : Nat := 3600

/-- Modelled from the spec: refresh-token lifetime from the settings module. -/
def REFRESH_TOKEN_LIFETIME : Nat := 86400 * 7

/-- Modelled from the spec: the one-way password hash (`passwordHash: one-way
hash of credential`); an injective tagging stands in for the hash function. -/
def hashPassword (p : String) : String := "pbkdf2$" ++ p

/-- Password check of the Password Verifier: the stored hash matches the
plaintext's hash. -/
def checkPassword (p : String) (h : String) : Bool := hashPassword p == h

/-- `rest_framework_simplejwt` token validation as used by
`JWTAuthentication.get_validated_token`: signature verifies, token type is
`access`, and the token is unexpired.  The expiry comparison is the library's
`check_exp`: a token whose `exp` claim is ≤ the current time is rejected, so a
token is valid only while `now < exp`. -/
def getValidatedToken (now : Nat) (v : Val) : Option TokenData :=
  match v with
  | Val.tok t =>
      if t.sigOk && (t.kind == TokenKind.access) && decide (now < t.exp)
      then some t else none
  | _ => none

/-- `JWTAuthentication.get_user`: look the subject up by id; an unknown or
inactive user raises `AuthenticationFailed` (here: `none`). -/
def getUser (db : List User) (t : TokenData) : Option User :=
  match db.find? (fun u => u.id == t.userId) with
  | none => none
  | some u => if u.isActive then some u else none

/-- Validation + identity lookup for one token source, as in both branches of
`CookieJWTAuthentication.authenticate` (any exception becomes `none`). -/
def validateAndGetUser (db : List User) (now : Nat) (v : Val) :
    Option (User × TokenData) :=
  match getValidatedToken now v with
  | none => none
  | some t =>
      match getUser db t with
      | none => none
      | some u => some (u, t)

/-- `JWTAuthentication.get_raw_token` applied to the Authorization header:
a well-formed `Bearer <token>` header yields the raw token; a malformed or
blank header yields `none`. -/
def getRawToken (h : Val) : Option Val :=
  match h with
  | Val.tok t => some (Val.tok t)
  | _ => none

/-- The header fallback of `CookieJWTAuthentication.authenticate`
(lines 30-44): no header or no raw token means `None`; otherwise validate the
header token and return the identity, with failures caught and turned into
`None`. -/
def headerAuth (db : List User) (now : Nat) (req : Request) :
    Option (User × TokenData) :=
  match req.authHeader with
  | none => none
  | some h =>
      match getRawToken h with
      | none => none
      | some raw => validateAndGetUser db now raw

/-- `CookieJWTAuthentication.authenticate`: read the `access_token` cookie
(default `AUTH_COOKIE` name); if present and truthy, try to validate it and
return the identity on success; on any failure fall through to the
Authorization-header path. -/
def authenticate (db : List User) (now : Nat) (req : Request) :
    Option (User × TokenData) :=
  let cookieVal := req.cookies.lookup "access_token"
  let fromCookie :=
    match cookieVal with
    | some v => if v.truthy then validateAndGetUser db now v else none
    | none => none
  match fromCookie with
  | some r => some r
  | none => headerAuth db now req

/-- `RefreshToken.for_user(user)`: a fresh signed refresh token bound to the
user, expiring one refresh lifetime from now. -/
def refreshTokenFor (u : User) (now : Nat) : TokenData :=
  { userId := u.id, exp := now + REFRESH_TOKEN_LIFETIME,
    kind := TokenKind.refresh, sigOk := true }

/-- `refresh.access_token`: the access token minted from a refresh token,
same subject, expiring one access lifetime from now. -/
def accessTokenFrom (t : TokenData) (now : Nat) : TokenData :=
  { userId := t.userId, exp := now + ACCESS_TOKEN_LIFETIME,
    kind := TokenKind.access, sigOk := true }

/-- `utils.set_jwt_cookies`: set both the `access_token` and the
`refresh_token` cookie on the response. -/
def setJwtCookies (r : Response) (a rf : Val) : Response :=
  { r with setCookies :=
      r.setCookies ++ [⟨"access_token", a⟩, ⟨"refresh_token", rf⟩] }

/-- `utils.set_access_token_cookie`: set only the `access_token` cookie. -/
def setAccessTokenCookie (r : Response) (a : Val) : Response :=
  { r with setCookies := r.setCookies ++ [⟨"access_token", a⟩] }

/-- `utils.delete_jwt_cookies`: delete both cookies by name. -/
def deleteJwtCookies (r : Response) : Response :=
  { r with deletedCookies :=
      r.deletedCookies ++ ["access_token", "refresh_token"] }

/-- Input to `POST /register` (`UserRegistrationSerializer` fields);
`none` means the key is absent from the request body. -/
structure RegInput where
  email     : Option String
  password  : Option String
  password2 : Option String
  firstName : Option String
  lastName  : Option String
deriving Repr, DecidableEq

/-- Modelled from the spec: Django's `validate_password` strength policy
(settings/validators not under `src/`); a minimum length stands in for the
configured policy. -/
def passesStrength (p : String) : Bool := 8 ≤ p.length

/-- Modelled from the spec: email uniqueness is case-insensitive
(`email: unique, case-insensitive identifier`; the unique constraint lives in
the missing `users/models.py`). -/
def emailTaken (db : List User) (e : String) : Bool :=
  db.any (fun u => u.email.toLower == e.toLower)

/-- The data `UserRegistrationSerializer` accepts after field-level and
object-level validation. -/
structure RegValidated where
  email     : String
  password  : String
  firstName : String
  lastName  : String
deriving Repr, DecidableEq

/-- `UserRegistrationSerializer.is_valid`: email/password/password2 required,
email unique, password passes the strength policy, passwords match
(`validate`, serializers.py lines 26-30). -/
def registrationValid (db : List User) (inp : RegInput) : Option RegValidated :=
  match inp.email, inp.password, inp.password2 with
  | some e, some p, some p2 =>
      if emailTaken db e then none
      else if !passesStrength p then none
      else if p != p2 then none
      else some ⟨e, p, inp.firstName.getD "", inp.lastName.getD ""⟩
  | _, _, _ => none

/-- Modelled from the spec: `User.objects.create_user` of the missing
`users/models.py` — creates the row with a fresh id, the hashed password,
`isActive` true, `dateJoined` now and no `lastLogin` yet. -/
def createUser (nextId : Nat) (now : Nat) (v : RegValidated) : User :=
  { id := nextId, email := v.email, passwordHash := hashPassword v.password,
    firstName := v.firstName, lastName := v.lastName,
    isActive := true, dateJoined := now, lastLogin := none }

/-- `RegisterView.post` (views.py lines 38-58): validate
(`raise_exception=True` turns a validation failure into a 400 with no user
saved and no cookies), otherwise save the user, mint a token pair via
`RefreshToken.for_user`, and attach both cookies.  Returns the new store
contents together with the response. -/
def registerPost (db : List User) (nextId : Nat) (now : Nat) (inp : RegInput) :
    List User × Response :=
  match registrationValid db inp with
  | none => (db, { status := 400, setCookies := [], deletedCookies := [] })
  | some v =>
      let u := createUser nextId now v
      let rf := refreshTokenFor u now
      let a := accessTokenFrom rf now
      let resp : Response := { status := 201, setCookies := [], deletedCookies := [] }
      (db ++ [u], setJwtCookies resp (Val.tok a) (Val.tok rf))

/-- Input to `POST /login` (`UserLoginSerializer` fields). -/
structure LoginInput where
  email    : Option String
  password : Option String
deriving Repr, DecidableEq

/-- Modelled from the spec: `django.contrib.auth.authenticate` backed by the
credential store — the Password Verifier of spec section 2: look the user up
by email and check the plaintext against the stored hash. -/
def djangoAuthenticate (db : List User) (e p : String) : Option User :=
  match db.find? (fun u => u.email == e) with
  | none => none
  | some u => if checkPassword p u.passwordHash then some u else none

/-- `UserLoginSerializer.validate` (serializers.py lines 45-61): both fields
must be present and truthy; `authenticate` must return a user; an inactive
account raises `ValidationError` (`User account is disabled.`). -/
def loginValidate (db : List User) (inp : LoginInput) : Option User :=
  match inp.email, inp.password with
  | some e, some p =>
      if e != "" && p != "" then
        match djangoAuthenticate db e p with
        | none => none
        | some u => if u.isActive then some u else none
      else none
  | _, _ => none

/-- `login_view` (views.py lines 78-104): on valid credentials mint a fresh
token pair, return 200 and attach both cookies; otherwise 400 with no
cookies.  The store is returned unchanged in both cases: no statement in the
handler or the serializer writes to the user row. -/
def loginPost (db : List User) (now : Nat) (inp : LoginInput) :
    List User × Response :=
  match loginValidate db inp with
  | none => (db, { status := 400, setCookies := [], deletedCookies := [] })
  | some u =>
      let rf := refreshTokenFor u now
      let a := accessTokenFrom rf now
      let resp : Response := { status := 200, setCookies := [], deletedCookies := [] }
      (db, setJwtCookies resp (Val.tok a) (Val.tok rf))

/-- Input to `PUT/PATCH /profile` (`UserUpdateSerializer` fields, the only
mutable ones); `none` means the key is absent. -/
structure UpdInput where
  firstName : Option String
  lastName  : Option String
deriving Repr, DecidableEq

/-- Python's `str.strip()`: drop whitespace from both ends, written on the
character list so it evaluates. -/
def pyStrip (s : String) : String :=
  ⟨((s.data.dropWhile Char.isWhitespace).reverse.dropWhile Char.isWhitespace).reverse⟩

/-- `UserUpdateSerializer.validate_first_name` / `validate_last_name`
(serializers.py lines 87-97), the serializer-level hook exactly as written:
a truthy value that strips to the empty string raises `ValidationError`;
otherwise the value is returned stripped when truthy and unchanged when
falsy.  It receives the output of the field's `run_validation`
(`runNameField`), not the raw request value. -/
def validateName (v : String) : Option String :=
  if v != "" && pyStrip v == "" then none
  else some (if v != "" then pyStrip v else v)

/-- DRF `CharField.run_validation` for the name fields as generated by
`ModelSerializer`: with the default `trim_whitespace=True`, an empty or
whitespace-only value short-circuits, and with `allow_blank=True` (derived
from `blank=True` on the name fields of the missing `users/models.py`, per
the spec's `optional display fields`) it returns `""`; any other value is
returned stripped by the field's `to_internal_value`.  It never fails. -/
def runNameField (v : String) : String :=
  if v == "" || pyStrip v == "" then "" else pyStrip v

/-- The full pipeline a provided name value goes through in
`serializer.is_valid()`: the field's `run_validation`, then the serializer's
`validate_<field>` hook on its output. -/
def validateNameField (v : String) : Option String :=
  validateName (runNameField v)

/-- `UserProfileView.update` (views.py lines 171-181) with
`UserUpdateSerializer`: run each provided name field through the field-level
pipeline plus the serializer hook (`validateNameField`), then persist.
Only the two name fields are in the serializer's `fields`, so nothing else
changes.  `none` is a 400 validation error with no persistence. -/
def updateProfile (u : User) (inp : UpdInput) : Option User :=
  match inp.firstName with
  | some f =>
      match validateNameField f with
      | none => none
      | some f' =>
          match inp.lastName with
          | some l =>
              match validateNameField l with
              | none => none
              | some l' => some { u with firstName := f', lastName := l' }
          | none => some { u with firstName := f' }
  | none =>
      match inp.lastName with
      | some l =>
          match validateNameField l with
          | none => none
          | some l' => some { u with lastName := l' }
      | none => some u

/-- `TokenRefreshSerializer` validation (simplejwt): the supplied value must
be a structurally valid JWT whose signature verifies, whose `token_type` is
`refresh`, and which is unexpired (`check_exp`: invalid once `exp ≤ now`). -/
def validateRefreshToken (now : Nat) (v : Val) : Option TokenData :=
  match v with
  | Val.tok t =>
      if t.sigOk && (t.kind == TokenKind.refresh) && decide (now < t.exp)
      then some t else none
  | _ => none

/-- `CookieTokenRefreshView.post` (views.py lines 206-234): read the refresh
token from the `refresh_token` cookie only; a missing or falsy cookie is a
401; an invalid/expired token raises `InvalidToken` (401); otherwise 200 and
only the access cookie is set (`set_access_token_cookie`). -/
def refreshPost (now : Nat) (req : Request) : Response :=
  match req.cookies.lookup "refresh_token" with
  | none => { status := 401, setCookies := [], deletedCookies := [] }
  | some v =>
      if !v.truthy then { status := 401, setCookies := [], deletedCookies := [] }
      else
        match validateRefreshToken now v with
        | none => { status := 401, setCookies := [], deletedCookies := [] }
        | some t =>
            let resp : Response := { status := 200, setCookies := [], deletedCookies := [] }
            setAccessTokenCookie resp (Val.tok (accessTokenFrom t now))

/-- The refresh precondition of the spec's endpoint table: a truthy
`refresh_token` cookie holding a valid, unexpired refresh token. -/
def refreshPrecondition (now : Nat) (req : Request) : Bool :=
  match req.cookies.lookup "refresh_token" with
  | none => false
  | some v => v.truthy && (validateRefreshToken now v).isSome

/-- Does the response set a cookie with this name? -/
def Response.setsCookie (r : Response) (n : String) : Bool :=
  r.setCookies.any (fun c => c.name == n)

/-! Concrete sample data used to instantiate the theorems below. -/

/-- A concrete active user. -/
def sampleUser : User :=
  { id := 1, email := "a@b.com", passwordHash := hashPassword "Str0ngPass",
    firstName := "Test", lastName := "User", isActive := true,
    dateJoined := 0, lastLogin := none }

/-- A concrete deactivated user whose stored hash matches `Str0ngPass`. -/
def inactiveUser : User :=
  { id := 2, email := "c@d.com", passwordHash := hashPassword "Str0ngPass",
    firstName := "", lastName := "", isActive := false,
    dateJoined := 0, lastLogin := none }

/-- A concrete credential store. -/
def sampleDb : List User := [sampleUser, inactiveUser]

/-- An access token for `sampleUser` that expired at time 5. -/
def staleAccessTok : TokenData :=
  { userId := 1, exp := 5, kind := TokenKind.access, sigOk := true }

/-- An access token for `sampleUser` valid until time 1000. -/
def liveAccessTok : TokenData :=
  { userId := 1, exp := 1000, kind := TokenKind.access, sigOk := true }

/-- A refresh token for `sampleUser` valid until time 2000. -/
def liveRefreshTok : TokenData :=
  { userId := 1, exp := 2000, kind := TokenKind.refresh, sigOk := true }

/-! Theorems for the claims. -/

/-- C1: a request whose access-token cookie is present but fails validation
(invalid signature, expired, malformed, or user not found) while the bearer
Authorization header resolves to a valid identity is resolved successfully to
the header identity; the invalid cookie never makes `authenticate` fail. -/
theorem cookie_failure_falls_back_to_header
    (db : List User) (now : Nat) (req : Request) (v : Val) (r : User × TokenData)
    (hc : req.cookies.lookup "access_token" = some v)
    (hfail : validateAndGetUser db now v = none)
    (hdr : headerAuth db now req = some r) :
    authenticate db now req = some r := by
  unfold authenticate
  rw [hc]
  cases hv : v.truthy <;> simp [hv, hfail, hdr]

/-- Witness for C1: expired cookie token plus a valid bearer header resolves
to `sampleUser` via the header. -/
theorem cookie_failure_falls_back_to_header_witness :
    authenticate sampleDb 10
      { cookies := [("access_token", Val.tok staleAccessTok)],
        authHeader := some (Val.tok liveAccessTok), body := [] }
      = some (sampleUser, liveAccessTok) :=
  cookie_failure_falls_back_to_header sampleDb 10
    { cookies := [("access_token", Val.tok staleAccessTok)],
      authHeader := some (Val.tok liveAccessTok), body := [] }
    (Val.tok staleAccessTok) (sampleUser, liveAccessTok)
    (by rfl) (by rfl) (by rfl)

/-- C8: when the access-token cookie validates, `authenticate` returns the
cookie identity, and the outcome is independent of the Authorization header:
two requests with the same cookies resolve identically. -/
theorem valid_cookie_result_independent_of_header
    (db : List User) (now : Nat) (req1 req2 : Request) (v : Val) (r : User × TokenData)
    (hc : req1.cookies.lookup "access_token" = some v)
    (hceq : req2.cookies = req1.cookies)
    (htr : v.truthy = true)
    (hok : validateAndGetUser db now v = some r) :
    authenticate db now req1 = some r ∧ authenticate db now req2 = some r := by
  constructor <;> unfold authenticate <;> simp [hceq, hc, htr, hok]

/-- Witness for C8: the same valid cookie with a bearer header for another
expired token and with no header at all both resolve to `sampleUser`. -/
theorem valid_cookie_result_independent_of_header_witness :
    authenticate sampleDb 10
      { cookies := [("access_token", Val.tok liveAccessTok)],
        authHeader := some (Val.tok staleAccessTok), body := [] }
      = some (sampleUser, liveAccessTok) ∧
    authenticate sampleDb 10
      { cookies := [("access_token", Val.tok liveAccessTok)],
        authHeader := none, body := [] }
      = some (sampleUser, liveAccessTok) :=
  valid_cookie_result_independent_of_header sampleDb 10
    { cookies := [("access_token", Val.tok liveAccessTok)],
      authHeader := some (Val.tok staleAccessTok), body := [] }
    { cookies := [("access_token", Val.tok liveAccessTok)],
      authHeader := none, body := [] }
    (Val.tok liveAccessTok) (sampleUser, liveAccessTok)
    (by rfl) (by rfl) (by rfl) (by rfl)

/-- C9: an access token whose expiry equals (or precedes) the current instant
is invalid: with that token as the only credential, `authenticate` fails at
the expiry instant and at every later instant. -/
theorem access_token_invalid_at_expiry
    (db : List User) (now : Nat) (t : TokenData) (req : Request)
    (hexp : t.exp ≤ now)
    (hc : req.cookies.lookup "access_token" = some (Val.tok t))
    (hh : req.authHeader = none) :
    authenticate db now req = none := by
  have hval : getValidatedToken now (Val.tok t) = none := by
    unfold getValidatedToken
    simp [Nat.not_lt.mpr hexp]
  unfold authenticate headerAuth
  rw [hc, hh]
  simp [validateAndGetUser, hval]

/-- Witness for C9: at time 5, exactly the expiry instant of
`staleAccessTok`, authentication with that cookie alone fails. -/
theorem access_token_invalid_at_expiry_witness :
    authenticate sampleDb 5
      { cookies := [("access_token", Val.tok staleAccessTok)],
        authHeader := none, body := [] } = none :=
  access_token_invalid_at_expiry sampleDb 5 staleAccessTok
    { cookies := [("access_token", Val.tok staleAccessTok)],
      authHeader := none, body := [] }
    (by decide) (by rfl) (by rfl)

/-- C6: a successful refresh (truthy `refresh_token` cookie holding a valid,
unexpired refresh token) returns 200 and sets exactly one cookie — the new
access token; the response neither sets nor deletes the `refresh_token`
cookie. -/
theorem refresh_sets_access_cookie_only
    (now : Nat) (req : Request) (v : Val) (t : TokenData)
    (hc : req.cookies.lookup "refresh_token" = some v)
    (htr : v.truthy = true)
    (hv : validateRefreshToken now v = some t) :
    refreshPost now req =
      { status := 200,
        setCookies := [⟨"access_token", Val.tok (accessTokenFrom t now)⟩],
        deletedCookies := [] } ∧
    (refreshPost now req).setsCookie "refresh_token" = false := by
  have hmain : refreshPost now req =
      { status := 200,
        setCookies := [⟨"access_token", Val.tok (accessTokenFrom t now)⟩],
        deletedCookies := [] } := by
    unfold refreshPost
    rw [hc]
    simp [htr, hv, setAccessTokenCookie]
  refine ⟨hmain, ?_⟩
  rw [hmain]
  simp [Response.setsCookie]

/-- Witness for C6: refreshing at time 10 with `liveRefreshTok` in the cookie
sets only the new access cookie. -/
theorem refresh_sets_access_cookie_only_witness :
    refreshPost 10
      { cookies := [("refresh_token", Val.tok liveRefreshTok)],
        authHeader := none, body := [] } =
      { status := 200,
        setCookies := [⟨"access_token", Val.tok (accessTokenFrom liveRefreshTok 10)⟩],
        deletedCookies := [] } ∧
    (refreshPost 10
      { cookies := [("refresh_token", Val.tok liveRefreshTok)],
        authHeader := none, body := [] }).setsCookie "refresh_token" = false :=
  refresh_sets_access_cookie_only 10
    { cookies := [("refresh_token", Val.tok liveRefreshTok)],
      authHeader := none, body := [] }
    (Val.tok liveRefreshTok) liveRefreshTok (by rfl) (by rfl) (by rfl)

/-- C7: the refresh endpoint returns 401 exactly when the refresh
precondition (cookie present, truthy, valid and unexpired) fails, and 200
with the access cookie reset exactly when it holds. -/
theorem refresh_status_iff_precondition
    (now : Nat) (req : Request) :
    ((refreshPost now req).status = 401 ↔ refreshPrecondition now req = false) ∧
    (((refreshPost now req).status = 200 ∧
      (refreshPost now req).setsCookie "access_token" = true) ↔
      refreshPrecondition now req = true) := by
  unfold refreshPost refreshPrecondition
  cases hc : req.cookies.lookup "refresh_token" with
  | none => simp
  | some v =>
      cases htr : v.truthy with
      | false => simp [htr]
      | true =>
          cases hv : validateRefreshToken now v with
          | none => simp [htr, hv]
          | some t =>
              simp [htr, hv, setAccessTokenCookie, Response.setsCookie]

/-- Witness for C7: at time 10 the valid-cookie request satisfies the
precondition and gets 200 with the access cookie; the cookieless request
fails the precondition and gets 401. -/
theorem refresh_status_iff_precondition_witness :
    ((refreshPost 10
        { cookies := [("refresh_token", Val.tok liveRefreshTok)],
          authHeader := none, body := [] }).status = 200 ∧
     (refreshPost 10
        { cookies := [("refresh_token", Val.tok liveRefreshTok)],
          authHeader := none, body := [] }).setsCookie "access_token" = true) ∧
    (refreshPost 10 { cookies := [], authHeader := none, body := [] }).status = 401 :=
  ⟨(refresh_status_iff_precondition 10
      { cookies := [("refresh_token", Val.tok liveRefreshTok)],
        authHeader := none, body := [] }).2.mpr (by rfl),
   (refresh_status_iff_precondition 10
      { cookies := [], authHeader := none, body := [] }).1.mpr (by rfl)⟩

/-- C10: the refresh outcome depends only on the cookies: requests with equal
cookies get equal responses whatever their bodies, and a request without the
`refresh_token` cookie gets 401 even when its body carries a valid refresh
token under the `refresh` key. -/
theorem refresh_depends_only_on_cookie
    (now : Nat) (req1 req2 req3 : Request) (t : TokenData)
    (hceq : req1.cookies = req2.cookies)
    (hno : req3.cookies.lookup "refresh_token" = none)
    (hbody : req3.body.lookup "refresh" = some (Val.tok t))
    (hvalid : validateRefreshToken now (Val.tok t) = some t) :
    refreshPost now req1 = refreshPost now req2 ∧
    (refreshPost now req3).status = 401 := by
  constructor
  · unfold refreshPost
    rw [hceq]
  · unfold refreshPost
    rw [hno]

/-- Witness for C10: two requests sharing the valid refresh cookie but with
different bodies coincide, and the request carrying the valid token only in
its body is refused with 401. -/
theorem refresh_depends_only_on_cookie_witness :
    refreshPost 10
      { cookies := [("refresh_token", Val.tok liveRefreshTok)],
        authHeader := none, body := [] } =
    refreshPost 10
      { cookies := [("refresh_token", Val.tok liveRefreshTok)],
        authHeader := none, body := [("refresh", Val.str "junk")] } ∧
    (refreshPost 10
      { cookies := [], authHeader := none,
        body := [("refresh", Val.tok liveRefreshTok)] }).status = 401 :=
  refresh_depends_only_on_cookie 10
    { cookies := [("refresh_token", Val.tok liveRefreshTok)],
      authHeader := none, body := [] }
    { cookies := [("refresh_token", Val.tok liveRefreshTok)],
      authHeader := none, body := [("refresh", Val.str "junk")] }
    { cookies := [], authHeader := none,
      body := [("refresh", Val.tok liveRefreshTok)] }
    liveRefreshTok (by rfl) (by rfl) (by rfl) (by rfl)

/-- Successful registration validation fixes the email: the validated email
is the one submitted. -/
theorem registrationValid_email (db : List User) (inp : RegInput) (v : RegValidated)
    (h : registrationValid db inp = some v) : inp.email = some v.email := by
  unfold registrationValid at h
  cases he : inp.email with
  | none => rw [he] at h; cases hp : inp.password <;> rw [hp] at h <;> simp at h
  | some e =>
      cases hp : inp.password with
      | none => rw [he, hp] at h; simp at h
      | some p =>
          cases hp2 : inp.password2 with
          | none => rw [he, hp, hp2] at h; simp at h
          | some p2 =>
              rw [he, hp, hp2] at h
              dsimp only at h
              split_ifs at h
              cases h
              rfl

/-- C2: registration is all-or-nothing: for every store and input, either the
response is 201, a user with the submitted email is now in the store, and
both the access and refresh cookies are set, or the store is unchanged and no
cookies were set. -/
theorem register_atomicity (db : List User) (nextId now : Nat) (inp : RegInput) :
    ((registerPost db nextId now inp).2.status = 201 ∧
     (∃ e, inp.email = some e ∧
        ((registerPost db nextId now inp).1.any (fun u => u.email == e)) = true) ∧
     (registerPost db nextId now inp).2.setsCookie "access_token" = true ∧
     (registerPost db nextId now inp).2.setsCookie "refresh_token" = true)
    ∨ ((registerPost db nextId now inp).2.status = 400 ∧
       (registerPost db nextId now inp).1 = db ∧
       (registerPost db nextId now inp).2.setCookies = []) := by
  cases hval : registrationValid db inp with
  | none =>
      right
      unfold registerPost
      rw [hval]
      exact ⟨rfl, rfl, rfl⟩
  | some v =>
      left
      have hemail := registrationValid_email db inp v hval
      unfold registerPost
      rw [hval]
      refine ⟨rfl, ⟨v.email, hemail, ?_⟩, by rfl, by rfl⟩
      simp [createUser]

/-- C5: a login attempt for a user whose `isActive` flag is false returns a
400 validation error even when the submitted password is correct; no cookies
are set and the store is unchanged. -/
theorem inactive_login_rejected
    (db : List User) (now : Nat) (inp : LoginInput) (e p : String) (u : User)
    (he : inp.email = some e) (hp : inp.password = some p)
    (hu : db.find? (fun x => x.email == e) = some u)
    (hpw : checkPassword p u.passwordHash = true)
    (hinactive : u.isActive = false) :
    (loginPost db now inp).2.status = 400 ∧
    (loginPost db now inp).2.setCookies = [] ∧
    (loginPost db now inp).1 = db := by
  have hval : loginValidate db inp = none := by
    unfold loginValidate
    rw [he, hp]
    dsimp only
    split_ifs with htr
    · unfold djangoAuthenticate
      rw [hu]
      simp [hpw, hinactive]
    · rfl
  unfold loginPost
  rw [hval]
  exact ⟨rfl, rfl, rfl⟩

/-- Witness for C5: `inactiveUser` with the correct password `Str0ngPass` is
rejected with 400 and no cookies. -/
theorem inactive_login_rejected_witness :
    (loginPost sampleDb 100 { email := some "c@d.com", password := some "Str0ngPass" }).2.status = 400 ∧
    (loginPost sampleDb 100 { email := some "c@d.com", password := some "Str0ngPass" }).2.setCookies = [] ∧
    (loginPost sampleDb 100 { email := some "c@d.com", password := some "Str0ngPass" }).1 = sampleDb :=
  inactive_login_rejected sampleDb 100
    { email := some "c@d.com", password := some "Str0ngPass" }
    "c@d.com" "Str0ngPass" inactiveUser
    (by rfl) (by rfl) (by decide) (by decide) (by rfl)

/-- Counterexample to C3 as stated: at a concrete store and input the login
succeeds (200, both cookies set) yet the store — and with it the user's
`lastLogin` — is unchanged: no user ends up with `lastLogin` set, so the
claimed `lastLogin` update does not happen. -/
theorem login_leaves_lastLogin_unset :
    (loginPost sampleDb 100 { email := some "a@b.com", password := some "Str0ngPass" }).2.status = 200 ∧
    (loginPost sampleDb 100 { email := some "a@b.com", password := some "Str0ngPass" }).2.setsCookie "access_token" = true ∧
    (loginPost sampleDb 100 { email := some "a@b.com", password := some "Str0ngPass" }).2.setsCookie "refresh_token" = true ∧
    (loginPost sampleDb 100 { email := some "a@b.com", password := some "Str0ngPass" }).1 = sampleDb ∧
    sampleDb.all (fun u => u.lastLogin == none) = true := by
  refine ⟨?_, ?_, ?_, ?_, ?_⟩ <;> decide

/-- C3 amended: every successful login (email exists, password verifies,
`isActive` true — i.e. `loginValidate` succeeds) returns 200, issues a fresh
token pair and attaches both cookies; the credential store, including
`lastLogin`, is left unchanged. -/
theorem login_success_effects
    (db : List User) (now : Nat) (inp : LoginInput) (u : User)
    (hval : loginValidate db inp = some u) :
    (loginPost db now inp).2.status = 200 ∧
    (loginPost db now inp).2.setCookies =
      [⟨"access_token", Val.tok (accessTokenFrom (refreshTokenFor u now) now)⟩,
       ⟨"refresh_token", Val.tok (refreshTokenFor u now)⟩] ∧
    (loginPost db now inp).1 = db := by
  unfold loginPost
  rw [hval]
  exact ⟨rfl, rfl, rfl⟩

/-- Witness for amended C3: `sampleUser` logs in successfully at time 100 and
gets both cookies while the store stays as it was. -/
theorem login_success_effects_witness :
    (loginPost sampleDb 100 { email := some "a@b.com", password := some "Str0ngPass" }).2.status = 200 ∧
    (loginPost sampleDb 100 { email := some "a@b.com", password := some "Str0ngPass" }).2.setCookies =
      [⟨"access_token", Val.tok (accessTokenFrom (refreshTokenFor sampleUser 100) 100)⟩,
       ⟨"refresh_token", Val.tok (refreshTokenFor sampleUser 100)⟩] ∧
    (loginPost sampleDb 100 { email := some "a@b.com", password := some "Str0ngPass" }).1 = sampleDb :=
  login_success_effects sampleDb 100
    { email := some "a@b.com", password := some "Str0ngPass" } sampleUser (by decide)

/-- The front `dropWhile` leaves a both-ends-stripped character list
unchanged: its head, if any, is the head of the front-stripped list and so is
not whitespace. -/
theorem dropWhile_strip_self (l : List Char) :
    List.dropWhile Char.isWhitespace
        (List.rdropWhile Char.isWhitespace (List.dropWhile Char.isWhitespace l)) =
      List.rdropWhile Char.isWhitespace (List.dropWhile Char.isWhitespace l) := by
  have hidem : List.dropWhile Char.isWhitespace
      (List.dropWhile Char.isWhitespace l) = List.dropWhile Char.isWhitespace l :=
    List.dropWhile_idempotent Char.isWhitespace l
  cases hB : List.rdropWhile Char.isWhitespace (List.dropWhile Char.isWhitespace l) with
  | nil => simp
  | cons b r =>
      have hpre := List.rdropWhile_prefix Char.isWhitespace
        (List.dropWhile Char.isWhitespace l)
      rw [hB] at hpre
      obtain ⟨u, hu⟩ := hpre
      have h2 : List.dropWhile Char.isWhitespace (b :: (r ++ u)) = b :: (r ++ u) := by
        have hAeq : List.dropWhile Char.isWhitespace l = b :: (r ++ u) := by
          rw [← hu]; simp
        rw [← hAeq]
        exact hidem
      have hb : ¬Char.isWhitespace b = true := by
        have := List.dropWhile_eq_self_iff.mp h2 (by simp)
        simpa using this
      refine List.dropWhile_eq_self_iff.mpr ?_
      intro hl
      simpa using hb

/-- Stripping whitespace from both ends is idempotent at the list level. -/
theorem stripData_idem (l : List Char) :
    List.rdropWhile Char.isWhitespace (List.dropWhile Char.isWhitespace
      (List.rdropWhile Char.isWhitespace (List.dropWhile Char.isWhitespace l))) =
    List.rdropWhile Char.isWhitespace (List.dropWhile Char.isWhitespace l) := by
  rw [dropWhile_strip_self, List.rdropWhile_idempotent]

/-- `pyStrip` is idempotent: a stripped string strips to itself. -/
theorem pyStrip_idem (s : String) : pyStrip (pyStrip s) = pyStrip s :=
  congrArg String.mk (stripData_idem s.data)

/-- The full name-field pipeline never fails and always yields the stripped
input: a blank or whitespace-only value short-circuits to `""` at the field
level, so the serializer hook's rejection branch is unreachable, and any
other value is stripped by the field before the hook re-strips it. -/
theorem validateNameField_eq (v : String) :
    validateNameField v = some (pyStrip v) := by
  unfold validateNameField runNameField
  by_cases h0 : v = ""
  · subst h0
    have hps : pyStrip "" = "" := by decide
    simp [validateName, hps]
  · by_cases h1 : pyStrip v = ""
    · simp [validateName, h0, h1]
    · simp [validateName, h0, h1, pyStrip_idem]

/-- Counterexample to C4 as stated: both the empty string and a
whitespace-only string are "empty after trimming", yet a profile update
providing such a first name is not rejected — the DRF field trims the
whitespace-only value to `""` and, the empty string being Python-falsy, the
serializer hook's guard skips it, so the empty name is accepted and
persisted. -/
theorem update_accepts_empty_first_name :
    updateProfile sampleUser { firstName := some "", lastName := none } =
      some { sampleUser with firstName := "" } ∧
    updateProfile sampleUser { firstName := some "  ", lastName := none } =
      some { sampleUser with firstName := "" } := by
  refine ⟨?_, ?_⟩ <;> decide

/-- C4 amended: a profile update never rejects a name value: each provided
name is accepted and persisted in trimmed form (an empty or whitespace-only
value persists as the empty string), an absent name is unchanged, and only
the name fields are mutable — every other field of the user is unchanged. -/
theorem update_profile_amended (u : User) (inp : UpdInput) :
    updateProfile u inp =
      some { u with
        firstName := (match inp.firstName with
                      | some f => pyStrip f
                      | none => u.firstName),
        lastName := (match inp.lastName with
                     | some l => pyStrip l
                     | none => u.lastName) } := by
  cases hf : inp.firstName with
  | none =>
      cases hl : inp.lastName with
      | none => simp [updateProfile, hf, hl]
      | some l => simp [updateProfile, hf, hl, validateNameField_eq]
  | some f =>
      cases hl : inp.lastName with
      | none => simp [updateProfile, hf, hl, validateNameField_eq]
      | some l => simp [updateProfile, hf, hl, validateNameField_eq]
end TabrizAuth
